import Mathlib

/-!
Verification of the homepage feature-list renderer
(src/src/components/HomepageFeatures/index.tsx).

The component is embedded shallowly: rendered JSX becomes a virtual-DOM
tree (`ReactNode`), the `FeatureItem` record and the module-level
`FeatureList` are translated field by field, and the two components
(`Feature`, `HomepageFeatures`) become pure Lean functions producing
that tree. The `.map((props, idx) => <Feature key={idx} .../>)` call is
translated as the index-carrying recursion `renderCards`.
-/

/-- A rendered virtual-DOM node: either a text node or an element with a
tag, an optional React key, a list of string attributes and children. -/
inductive ReactNode where
  | text (s : String)
  | element (tag : String) (key : Option Nat) (attrs : List (String × String)) (children : List ReactNode)

/-- The record type of one homepage highlight, from the source:
`title` is the label, `Svg` the icon reference (the `require(...)` path,
kept as an opaque string handle), `description` the paragraph text. -/
structure FeatureItem where
  title : String
  Svg : String
  description : String

/-- Model of the `clsx` library call: joins its non-empty string
arguments with single spaces. -/
def clsx (args : List String) : String :=
  String.intercalate " " (args.filter (fun a => a != ""))

namespace styles

/-- Modelled from the spec: opaque class handle from the CSS module
`styles.module.css`, a styling collaborator whose file is not under
src/; only the handle identity matters to the component. -/
def features : String := "styles.features"

/-- Modelled from the spec: opaque class handle from the CSS module
`styles.module.css` (see `styles.features`). -/
def featureSvg : String := "styles.featureSvg"

end styles

/-- Model of the `@theme/Heading` collaborator: renders its children in
a heading element of the level given by the `as` prop. -/
def Heading (level : String) (children : List ReactNode) : ReactNode :=
  .element level none [] children

/-- The module-level `FeatureList` constant, translated record by
record from lines 12-40 of the source. -/
def FeatureList : List FeatureItem :=
  [ { title := "Pixel-perfect testing made simple.",
      Svg := "@site/static/img/undraw_docusaurus_mountain.svg",
      description := "Ensure your user interface looks exactly as intended across browsers and devices. With automated visual testing, spotting layout shifts and UI bugs is fast, accurate, and effortless." },
    { title := "Test it. Trust it. Ship it.",
      Svg := "@site/static/img/undraw_docusaurus_tree.svg",
      description := "Ensure every feature works as intended before it goes live. With fast, reliable testing, you can ship code with confidence every time" },
    { title := "Your app. Every screen. Zero bugs.",
      Svg := "@site/static/img/undraw_docusaurus_react.svg",
      description := "Deliver high-quality mobile apps with confidence. Mobile testing ensures smooth performance, consistent UI, and bug-free user experiences across all devices and platforms." } ]

/-- The `Feature` component (lines 42-54): one card. Outer div with the
column class, then a centered div holding the icon, then a centered div
holding the h3 title and the description paragraph. -/
def Feature (item : FeatureItem) : ReactNode :=
  .element "div" none [("className", clsx ["col col--4"])]
    [ .element "div" none [("className", "text--center")]
        [ .element "svg" none
            [("className", styles.featureSvg), ("role", "img"), ("src", item.Svg)] [] ],
      .element "div" none [("className", "text--center padding-horiz--md")]
        [ Heading "h3" [.text item.title],
          .element "p" none [] [.text item.description] ] ]

/-- Attach a React key to a node, as `<Feature key={idx} ...>` does to
the element it creates. -/
def withKey (k : Nat) : ReactNode → ReactNode
  | .text s => .text s
  | .element t _ a c => .element t (some k) a c

/-- The `FeatureList.map((props, idx) => <Feature key={idx} {...props} />)`
call: an index-carrying map starting at index `i`. -/
def renderCards (i : Nat) : List FeatureItem → List ReactNode
  | [] => []
  | p :: ps => withKey i (Feature p) :: renderCards (i + 1) ps

/-- The body of `HomepageFeatures` (lines 56-68) with the rendered list
abstracted as a parameter: section, container div, row div, one keyed
card per record. -/
def renderFeatures (featureList : List FeatureItem) : ReactNode :=
  .element "section" none [("className", styles.features)]
    [ .element "div" none [("className", "container")]
        [ .element "div" none [("className", "row")]
            (renderCards 0 featureList) ] ]

/-- The exported `HomepageFeatures` component: renders the module-level
`FeatureList`. -/
def HomepageFeatures : ReactNode :=
  renderFeatures FeatureList

/-! Observation functions on the rendered tree. -/

/-- The tag of an element node. -/
def ReactNode.tag : ReactNode → Option String
  | .text _ => none
  | .element t _ _ _ => some t

/-- The React key of an element node. -/
def ReactNode.key : ReactNode → Option Nat
  | .text _ => none
  | .element _ k _ _ => k

/-- Look up an attribute of an element node by name. -/
def ReactNode.attr (n : ReactNode) (a : String) : Option String :=
  match n with
  | .text _ => none
  | .element _ _ attrs _ => attrs.lookup a

/-- The children of the row div inside the section/container/row
nesting: the list of rendered cards. -/
def rowCards : ReactNode → List ReactNode
  | .element _ _ _ [.element _ _ _ [.element _ _ _ cs]] => cs
  | _ => []

/-- Whether a node has the section/container/row shape the renderer
produces: a section holding a single div holding a single div. -/
def containerShape : ReactNode → Bool
  | .element "section" _ _ [.element "div" _ _ [.element "div" _ _ _]] => true
  | _ => false

/-- The first child of a card: the centered div holding the icon. -/
def cardIconContainer : ReactNode → Option ReactNode
  | .element _ _ _ [c, _] => some c
  | _ => none

/-- The second child of a card: the centered div holding title and
description. -/
def cardTextContainer : ReactNode → Option ReactNode
  | .element _ _ _ [_, c] => some c
  | _ => none

/-- The icon element of a card (sole child of the icon container). -/
def cardSvg : ReactNode → Option ReactNode
  | .element _ _ _ [.element _ _ _ [s], _] => some s
  | _ => none

/-- The heading element of a card (first child of the text container). -/
def cardHeading : ReactNode → Option ReactNode
  | .element _ _ _ [_, .element _ _ _ [h, _]] => some h
  | _ => none

/-- The paragraph element of a card (second child of the text
container). -/
def cardParagraph : ReactNode → Option ReactNode
  | .element _ _ _ [_, .element _ _ _ [_, q]] => some q
  | _ => none

/-- The text held by an element whose single child is a text node. -/
def textOf : ReactNode → Option String
  | .element _ _ _ [.text s] => some s
  | _ => none

/-- The title text a card displays (text of its heading). -/
def cardTitle (c : ReactNode) : Option String :=
  (cardHeading c).bind textOf

/-- The description text a card displays (text of its paragraph). -/
def cardDescription (c : ReactNode) : Option String :=
  (cardParagraph c).bind textOf

mutual

/-- Document-order (preorder) flattening of a node: the node itself
followed by the flattening of its children. In the column layout of a
card, document order is top-to-bottom visual order. -/
def flatten : ReactNode → List ReactNode
  | .text s => [.text s]
  | .element t k a c => .element t k a c :: flattenList c

/-- Flattening of a list of sibling nodes, in order. -/
def flattenList : List ReactNode → List ReactNode
  | [] => []
  | n :: ns => flatten n ++ flattenList ns

end

/-- Index of the first element with the given tag in the document-order
flattening of a node. -/
def findTagIdx (t : String) (n : ReactNode) : Nat :=
  (flatten n).findIdx (fun m => m.tag == some t)

/-- Split the characters of a string at spaces. -/
def splitWords : List Char → List Char → List (List Char)
  | [], acc => [acc.reverse]
  | c :: cs, acc =>
      if c = ' ' then acc.reverse :: splitWords cs [] else splitWords cs (c :: acc)

/-- Whether a node carries the given class in its `className`
attribute (space-separated word list). -/
def hasClass (cls : String) (n : ReactNode) : Bool :=
  match n.attr "className" with
  | some s => (splitWords s.data []).contains cls.data
  | none => false

/-- Module state for the frame property: the module-level `FeatureList`
binding together with arbitrary other page state, abstracted as `rest`.
The source component contains no assignment, so its embedding as a
state transformer is computed below. -/
structure PageState (σ : Type) where
  FeatureList : List FeatureItem
  rest : σ

/-- `HomepageFeatures` as a pass over the module state: it reads
`FeatureList`, produces the rendered tree, and (the source having no
write) leaves the state as it was. -/
def HomepageFeaturesRun {σ : Type} (s : PageState σ) : ReactNode × PageState σ :=
  (renderFeatures s.FeatureList, s)

/-! Helper lemmas shared by the claim theorems. -/

theorem renderCards_length (l : List FeatureItem) (i : Nat) :
    (renderCards i l).length = l.length := by
  induction l generalizing i with
  | nil => rfl
  | cons p ps ih => simp [renderCards, ih]

theorem renderCards_getElem (l : List FeatureItem) (s i : Nat) :
    (renderCards s l)[i]? = l[i]?.map (fun p => withKey (s + i) (Feature p)) := by
  induction l generalizing s i with
  | nil => simp [renderCards]
  | cons p ps ih =>
    cases i with
    | zero => simp [renderCards]
    | succ j =>
      have h1 : s + 1 + j = s + (j + 1) := by omega
      simp only [renderCards, List.getElem?_cons_succ, ih, h1]

theorem rowCards_renderFeatures (items : List FeatureItem) :
    rowCards (renderFeatures items) = renderCards 0 items := rfl

theorem cardTitle_withKey_Feature (k : Nat) (p : FeatureItem) :
    cardTitle (withKey k (Feature p)) = some p.title := rfl

theorem attr_className_withKey_Feature (k : Nat) (p : FeatureItem) :
    (withKey k (Feature p)).attr "className" = some "col col--4" := rfl

theorem key_withKey_Feature (k : Nat) (p : FeatureItem) :
    (withKey k (Feature p)).key = some k := rfl

/-- Shared lemma: the React key of the card at index i is i. -/
theorem rendered_key_at (items : List FeatureItem) (i : Nat) (h : i < items.length) :
    ((rowCards (renderFeatures items))[i]?.bind ReactNode.key) = some i := by
  rw [rowCards_renderFeatures, renderCards_getElem, List.getElem?_eq_getElem h]
  simp [key_withKey_Feature]

/-- C1: for every non-negative N, rendering a sequence of N FeatureItem
records produces a row holding exactly N card outputs. -/
theorem claim_C1_card_count (items : List FeatureItem) :
    (rowCards (renderFeatures items)).length = items.length := by
  rw [rowCards_renderFeatures, renderCards_length]

/-- C2: for every input sequence and valid index i, the i-th rendered
card displays the title of the i-th input record (order-preserving
single-pass map). -/
theorem claim_C2_title_order (items : List FeatureItem) (i : Nat) (h : i < items.length) :
    ((rowCards (renderFeatures items))[i]?.bind cardTitle) = some items[i].title := by
  rw [rowCards_renderFeatures, renderCards_getElem, List.getElem?_eq_getElem h]
  simp [cardTitle_withKey_Feature]

/-- Witness for C2 at the built-in list and index 1. -/
theorem claim_C2_title_order_witness :
    ((rowCards (renderFeatures FeatureList))[1]?.bind cardTitle) =
      some "Test it. Trust it. Ship it." :=
  claim_C2_title_order FeatureList 1 (by decide)

/-- C3: the built-in FeatureList of three records renders exactly three
cards in order, each exposing its title text as an h3 heading and its
description text as a paragraph. -/
theorem claim_C3_concrete :
    (rowCards HomepageFeatures).length = 3 ∧
    ((rowCards HomepageFeatures)[0]?.bind cardTitle) = some "Pixel-perfect testing made simple." ∧
    ((rowCards HomepageFeatures)[1]?.bind cardTitle) = some "Test it. Trust it. Ship it." ∧
    ((rowCards HomepageFeatures)[2]?.bind cardTitle) = some "Your app. Every screen. Zero bugs." ∧
    ((rowCards HomepageFeatures)[0]?.bind (fun c => (cardHeading c).bind ReactNode.tag)) = some "h3" ∧
    ((rowCards HomepageFeatures)[1]?.bind (fun c => (cardHeading c).bind ReactNode.tag)) = some "h3" ∧
    ((rowCards HomepageFeatures)[2]?.bind (fun c => (cardHeading c).bind ReactNode.tag)) = some "h3" ∧
    ((rowCards HomepageFeatures)[0]?.bind (fun c => (cardParagraph c).bind ReactNode.tag)) = some "p" ∧
    ((rowCards HomepageFeatures)[1]?.bind (fun c => (cardParagraph c).bind ReactNode.tag)) = some "p" ∧
    ((rowCards HomepageFeatures)[2]?.bind (fun c => (cardParagraph c).bind ReactNode.tag)) = some "p" ∧
    ((rowCards HomepageFeatures)[0]?.bind cardDescription) =
      some "Ensure your user interface looks exactly as intended across browsers and devices. With automated visual testing, spotting layout shifts and UI bugs is fast, accurate, and effortless." ∧
    ((rowCards HomepageFeatures)[1]?.bind cardDescription) =
      some "Ensure every feature works as intended before it goes live. With fast, reliable testing, you can ship code with confidence every time" ∧
    ((rowCards HomepageFeatures)[2]?.bind cardDescription) =
      some "Deliver high-quality mobile apps with confidence. Mobile testing ensures smooth performance, consistent UI, and bug-free user experiences across all devices and platforms." :=
  ⟨rfl, rfl, rfl, rfl, rfl, rfl, rfl, rfl, rfl, rfl, rfl, rfl, rfl⟩

/-- C4: rendering is total over every input sequence (it always yields
the section/container/row shape), and the empty sequence yields that
container with zero cards rather than failing. -/
theorem claim_C4_total_empty (items : List FeatureItem) :
    containerShape (renderFeatures items) = true ∧
    containerShape (renderFeatures []) = true ∧
    rowCards (renderFeatures []) = [] :=
  ⟨rfl, rfl, rfl⟩

/-- C5: the renderer is a pure, deterministic function of its input:
two renderings of the same sequence are structurally identical. -/
theorem claim_C5_deterministic (items1 items2 : List FeatureItem) (h : items1 = items2) :
    renderFeatures items1 = renderFeatures items2 := by
  rw [h]

/-- Witness for C5 at the built-in list. -/
theorem claim_C5_deterministic_witness :
    renderFeatures FeatureList = renderFeatures FeatureList :=
  claim_C5_deterministic FeatureList FeatureList rfl

/-- C6: in every card the icon element comes before the title element,
and the title before the description, in document order (top-to-bottom
in the column layout), and both the icon container and the
title/description container carry the centering class. -/
theorem claim_C6_layout (item : FeatureItem) :
    findTagIdx "svg" (Feature item) < findTagIdx "h3" (Feature item) ∧
    findTagIdx "h3" (Feature item) < findTagIdx "p" (Feature item) ∧
    ((cardIconContainer (Feature item)).map (hasClass "text--center")) = some true ∧
    ((cardTextContainer (Feature item)).map (hasClass "text--center")) = some true := by
  have hs : findTagIdx "svg" (Feature item) = 2 := rfl
  have hh : findTagIdx "h3" (Feature item) = 4 := rfl
  have hp : findTagIdx "p" (Feature item) = 6 := rfl
  refine ⟨?_, ?_, rfl, rfl⟩
  · rw [hs, hh]; omega
  · rw [hh, hp]; omega

/-- C7: a rendering pass leaves the module state, FeatureList included,
exactly as it was, and the output depends on nothing but the feature
list it reads: states agreeing on FeatureList render identically. -/
theorem claim_C7_frame {σ : Type} (s1 s2 : PageState σ) (h : s1.FeatureList = s2.FeatureList) :
    (HomepageFeaturesRun s1).2 = s1 ∧
    (HomepageFeaturesRun s1).1 = (HomepageFeaturesRun s2).1 :=
  ⟨rfl, by simp [HomepageFeaturesRun, h]⟩

/-- Witness for C7: two states sharing FeatureList but differing in the
rest of the page state. -/
theorem claim_C7_frame_witness :
    (HomepageFeaturesRun (⟨FeatureList, true⟩ : PageState Bool)).2 =
      (⟨FeatureList, true⟩ : PageState Bool) ∧
    (HomepageFeaturesRun (⟨FeatureList, true⟩ : PageState Bool)).1 =
      (HomepageFeaturesRun (⟨FeatureList, false⟩ : PageState Bool)).1 :=
  claim_C7_frame ⟨FeatureList, true⟩ ⟨FeatureList, false⟩ rfl

/-- C8: every rendered card carries the fixed column-width class
col col--4, whatever its position or content. -/
theorem claim_C8_column_class (items : List FeatureItem) (i : Nat) (h : i < items.length) :
    ((rowCards (renderFeatures items))[i]?.bind (fun c => c.attr "className")) =
      some "col col--4" := by
  rw [rowCards_renderFeatures, renderCards_getElem, List.getElem?_eq_getElem h]
  simp [attr_className_withKey_Feature]

/-- Witness for C8 at the built-in list and index 2. -/
theorem claim_C8_column_class_witness :
    ((rowCards (renderFeatures FeatureList))[2]?.bind (fun c => c.attr "className")) =
      some "col col--4" :=
  claim_C8_column_class FeatureList 2 (by decide)

/-- C9: the React key of the i-th rendered card is the index i, so
cards at distinct valid indices carry distinct keys. -/
theorem claim_C9_keys (items : List FeatureItem) (i j : Nat) (hi : i < items.length)
    (hj : j < items.length) (hij : i ≠ j) :
    ((rowCards (renderFeatures items))[i]?.bind ReactNode.key) = some i ∧
    ((rowCards (renderFeatures items))[i]?.bind ReactNode.key) ≠
      ((rowCards (renderFeatures items))[j]?.bind ReactNode.key) := by
  refine ⟨rendered_key_at items i hi, ?_⟩
  rw [rendered_key_at items i hi, rendered_key_at items j hj]
  simp [hij]

/-- Witness for C9 at the built-in list, indices 0 and 1. -/
theorem claim_C9_keys_witness :
    ((rowCards (renderFeatures FeatureList))[0]?.bind ReactNode.key) = some 0 ∧
    ((rowCards (renderFeatures FeatureList))[0]?.bind ReactNode.key) ≠
      ((rowCards (renderFeatures FeatureList))[1]?.bind ReactNode.key) :=
  claim_C9_keys FeatureList 0 1 (by decide) (by decide) (by decide)

/-- C10: for every record, the rendered icon element carries
role img and the styles.featureSvg class, and the title is rendered as
an h3-level heading holding the record title. -/
theorem claim_C10_svg_heading (item : FeatureItem) :
    ((cardSvg (Feature item)).bind (fun n => n.attr "role")) = some "img" ∧
    ((cardSvg (Feature item)).bind (fun n => n.attr "className")) = some styles.featureSvg ∧
    ((cardHeading (Feature item)).bind ReactNode.tag) = some "h3" ∧
    cardTitle (Feature item) = some item.title :=
  ⟨rfl, rfl, rfl, rfl⟩
